import Mathlib

/-!
Verification of the Quotesn service worker (src/sw.js).

The worker is embedded shallowly:

* a `Request` carries the fields the fetch listener inspects (`method`,
  `mode`, `destination`, the URL's origin and pathname, and the `accept`
  header, which may be absent);
* a `Response` carries `status`, its `type` (basic / opaque / cors /
  default), a body and a header list; `ok` is derived from the status as
  in the platform (status in 200..299);
* the CacheStorage is a list of named stores in creation order; each store
  is an insertion-ordered association list from request key to response,
  matching the Cache API operations the worker uses (`caches.open`,
  `cache.match`, `caches.match`, `cache.put`, `cache.keys`,
  `cache.delete`, `caches.keys`, `caches.delete`);
* each strategy function takes the cache state and the outcome of the one
  network fetch it may issue (`NetOutcome.success r` or
  `NetOutcome.failure`, the latter standing for a rejected fetch), and
  returns the value the async handler resolves to (`Option Response`,
  `none` standing for resolving to null/undefined), the cache state after
  all side effects (including fire-and-forget puts and trims, which the
  spec requires to run to completion), and whether a network fetch for the
  request was issued;
* JavaScript truthiness, where it matters (line 180 of sw.js or-chains a
  Promise object), is modelled explicitly by `JsVal`.

The collaborator-owned payloads that the spec places out of scope (the
inline offline HTML document, and the decoding of a data: URL into a
response, used for the placeholder image) are passed in as parameters
(`offlineHtml`, `dataUrlFetch`).
-/

namespace SW

/-- Characters of a JavaScript string lowercased per ASCII, used to model
the case-insensitive `i` flag of the image-extension regex. -/
def lowerData (s : String) : List Char := s.data.map Char.toLower

/-- Boolean prefix test on character lists; basis for the embeddings of
`String.prototype.startsWith` and `String.prototype.includes`. -/
def isPrefixB : List Char → List Char → Bool
  | [], _ => true
  | _ :: _, [] => false
  | a :: p, b :: s => a == b && isPrefixB p s

/-- Boolean infix (substring) test on character lists. -/
def isInfixB (p : List Char) : List Char → Bool
  | [] => isPrefixB p []
  | c :: s => isPrefixB p (c :: s) || isInfixB p s

/-- JavaScript `s.includes(pat)`. -/
def strIncludes (s pat : String) : Bool := isInfixB pat.data s.data

/-- JavaScript `s.startsWith(pre)` (used by the activation sweep's
`name.startsWith('quotesn-')`). -/
def strStartsWith (s pre : String) : Bool := isPrefixB pre.data s.data

/-- Embedding of the raster-image regex test of sw.js line 134,
`/\.(png|jpg|jpeg|webp|avif|gif)(\?.*)?$/i.test(url.pathname)`: the
lowercased pathname either ends in a dot followed by one of the six
extensions, or contains the extension followed by a `?` (the optional
query alternative of the regex; a URL pathname never actually contains
`?` or a newline, so this is exact on the strings the listener sees). -/
def imageExtRegexTest (pathname : String) : Bool :=
  ["png", "jpg", "jpeg", "webp", "avif", "gif"].any fun ext =>
    isPrefixB ("." ++ ext).data.reverse (lowerData pathname).reverse
      || isInfixB ("." ++ ext ++ "?").data (lowerData pathname)

/-- Response types distinguished by the worker: it only ever tests
`response.type === 'opaque'`; constructed responses have type default. -/
inductive ResType where
  | basic
  | opaqueType
  | cors
  | defaultType
deriving DecidableEq, Repr

/-- A fetch-API response, restricted to the attributes the worker reads:
status, type, body and headers. -/
structure Response where
  status : Nat
  rtype : ResType
  body : String
  headers : List (String × String)
deriving DecidableEq, Repr

/-- Derived `response.ok`: status in the range 200..299. -/
def Response.ok (r : Response) : Bool :=
  decide (200 ≤ r.status ∧ r.status ≤ 299)

/-- One named cache: an insertion-ordered association list from request key
(method + URL; every intercepted request is a GET, so the URL string
suffices) to the stored response. `cache.keys()` lists keys in insertion
order. -/
abbrev CacheStore := List (String × Response)

/-- The CacheStorage: named stores in creation order. -/
abbrev CacheState := List (String × CacheStore)

/-- Contents of the store of the given name (empty if absent; store names
are unique because only `cachesOpen` creates stores). -/
def storeOf : CacheState → String → CacheStore
  | [], _ => []
  | e :: t, name => if e.1 = name then e.2 else storeOf t name

/-- Whether a store of the given name exists. -/
def hasStore : CacheState → String → Bool
  | [], _ => false
  | e :: t, name => if e.1 = name then true else hasStore t name

/-- Embedding of `caches.open(name)`: idempotent, allocates an empty store
on first use. -/
def cachesOpen (st : CacheState) (name : String) : CacheState :=
  if hasStore st name then st else st ++ [(name, [])]

/-- Embedding of `cache.match(request)` on a single store: the entry for
the key, or undefined. -/
def storeMatch : CacheStore → String → Option Response
  | [], _ => none
  | e :: t, key => if e.1 = key then some e.2 else storeMatch t key

/-- Match against the named store. -/
def cacheMatch (st : CacheState) (name key : String) : Option Response :=
  storeMatch (storeOf st name) key

/-- Embedding of `caches.match(request)`: search every store in order,
first hit wins. -/
def cachesMatchGlobal : CacheState → String → Option Response
  | [], _ => none
  | e :: t, key =>
      match storeMatch e.2 key with
      | some r => some r
      | none => cachesMatchGlobal t key

/-- Embedding of `cache.put(request, response)`: overwrite in place when
the key is already present (keys are unique, put being the only way to add
one), else append, so `cache.keys()` lists keys in insertion order. -/
def storePut : CacheStore → String → Response → CacheStore
  | [], key, r => [(key, r)]
  | e :: t, key, r => if e.1 = key then (key, r) :: t else e :: storePut t key r

/-- Put into the named store (a no-op on an absent name; the worker always
opens the store first, so the name is present whenever this is reached). -/
def cachePut : CacheState → String → String → Response → CacheState
  | [], _, _, _ => []
  | e :: t, name, key, r =>
      if e.1 = name then (e.1, storePut e.2 key r) :: t
      else e :: cachePut t name key r

/-- Embedding of `cache.delete(request)`: drop the entry for the key (at
most one exists). -/
def storeDelete : CacheStore → String → CacheStore
  | [], _ => []
  | e :: t, key => if e.1 = key then t else e :: storeDelete t key

/-- Delete from the named store. -/
def cacheDelete : CacheState → String → String → CacheState
  | [], _, _ => []
  | e :: t, name, key =>
      if e.1 = name then (e.1, storeDelete e.2 key) :: t
      else e :: cacheDelete t name key

/-! Store names.  sw.js fixes `VERSION` to a literal and derives
`RUNTIME_CACHE` and `PRECACHE` by template literals; the generic
constructors below make the version-string dependence explicit so that the
activation sweep can be stated for arbitrary current/previous versions. -/

/-- The deployed version literal of sw.js line 13. -/
def VERSION : String := "v1.0.0-2025-09-10"

/-- Runtime store name for a version: the template literal of line 14. -/
def runtimeName (v : String) : String := "quotesn-runtime-" ++ v

/-- Precache store name for a version: the template literal of line 15. -/
def precacheName (v : String) : String := "quotesn-precache-" ++ v

/-- Current runtime store name `RUNTIME_CACHE`. -/
def RUNTIME_CACHE : String := runtimeName VERSION

/-- Current precache store name `PRECACHE`. -/
def PRECACHE : String := precacheName VERSION

/-- Image-store name for a version: the template literal
`${RUNTIME_CACHE}-img` of line 135, as a function of the version. -/
def imageStoreName (v : String) : String := runtimeName v ++ "-img"

/-- Current image store name. -/
def IMAGE_CACHE : String := imageStoreName VERSION

/-- Cap for third-party image cache entries (line 68). -/
def IMAGE_CACHE_MAX_ITEMS : Nat := 60

/-- Embedding of `trimCache(cacheName, maxItems)` (lines 71..79): open the
store, snapshot the key list; if within the cap do nothing, otherwise
delete the first `keys.length - maxItems` keys in insertion order. -/
def trimCache (st : CacheState) (cacheName : String) (maxItems : Nat) : CacheState :=
  let st1 := cachesOpen st cacheName
  let keys := (storeOf st1 cacheName).map Prod.fst
  if keys.length ≤ maxItems then st1
  else (keys.take (keys.length - maxItems)).foldl
    (fun s k => cacheDelete s cacheName k) st1

/-! Activation sweep (lines 94..110). -/

/-- The predicate of the `filter` at lines 100..104, selecting the store
names to delete: namespaced under `quotesn-` and equal to neither the
current precache nor the current runtime store name. -/
def isStaleStoreName (version name : String) : Bool :=
  strStartsWith name "quotesn-"
    && !(name == precacheName version)
    && !(name == runtimeName version)

/-- Store names the activation handler deletes. -/
def sweepDeleted (version : String) (names : List String) : List String :=
  names.filter (isStaleStoreName version)

/-- Store names still present after the activation sweep. -/
def sweepRemaining (version : String) (names : List String) : List String :=
  names.filter (fun n => !(isStaleStoreName version n))

/-! Requests and the fetch-listener router (lines 113..141). -/

/-- The request attributes the fetch listener inspects.  `accept` is the
value of `req.headers.get('accept')`, absent when the header is missing
(JavaScript null). -/
structure Request where
  method : String
  mode : String
  destination : String
  urlOrigin : String
  urlPathname : String
  accept : Option String
deriving DecidableEq, Repr

/-- Cache key of a request: the cache stores key by method + URL and every
intercepted request is a GET, so the absolute URL identifies the entry. -/
def Request.key (req : Request) : String := req.urlOrigin ++ req.urlPathname

/-- Which handler the fetch listener hands the request to (with the store
name and cap it passes). -/
inductive Strategy where
  | notIntercepted
  | htmlNavigation
  | staleReval (cacheName : String)
  | cacheFirstCap (cacheName : String) (maxItems : Nat)
  | netFallCache (cacheName : String)
deriving DecidableEq, Repr

/-- Embedding of the dispatch logic of the fetch listener (lines 117..140):
non-GET requests are not intercepted; navigations (mode navigate, or an
accept header containing text/html, with a missing header read as the
empty string per `req.headers.get('accept') || ''`) go to
`handleHTMLNavigation`; same-origin requests go to `staleWhileRevalidate`
on `RUNTIME_CACHE`; image destinations or raster-extension paths go to
`cacheFirstWithLimit` on the image store with the configured cap;
everything else goes to `networkFallingBackToCache` on `RUNTIME_CACHE`. -/
def classify (selfOrigin : String) (req : Request) : Strategy :=
  if ¬ (req.method = "GET") then .notIntercepted
  else if req.mode = "navigate" ∨ strIncludes (req.accept.getD "") "text/html" = true then
    .htmlNavigation
  else if req.urlOrigin = selfOrigin then .staleReval RUNTIME_CACHE
  else if req.destination = "image" ∨ imageExtRegexTest req.urlPathname = true then
    .cacheFirstCap IMAGE_CACHE IMAGE_CACHE_MAX_ITEMS
  else .netFallCache RUNTIME_CACHE

/-! JavaScript values and truthiness, needed to model line 180 of sw.js
faithfully: there the or-chain `cached || fetchPromise || new Response(...)`
mixes an awaited cache-match result (a Response or undefined) with a
Promise object, and a Promise object is truthy regardless of what it will
later resolve to. -/

/-- A JavaScript value as it appears in the worker's or-chains: undefined,
a Response object, or a Promise that will resolve to a Response or to
null. -/
inductive JsVal where
  | undef
  | respVal (r : Response)
  | promiseVal (p : Option Response)
deriving Repr

/-- JavaScript truthiness on these values: undefined is falsy; any object,
in particular any Promise object, is truthy. -/
def JsVal.truthy : JsVal → Bool
  | .undef => false
  | .respVal _ => true
  | .promiseVal _ => true

/-- JavaScript `a || b` on values: `a` if truthy, else `b`. -/
def jsOr (a b : JsVal) : JsVal := if a.truthy then a else b

/-- An awaited `cache.match` result as a JavaScript value. -/
def optToJs : Option Response → JsVal
  | none => .undef
  | some r => .respVal r

/-- What awaiting (returning from the async function) yields for a value:
a Promise resolves to its payload, everything else to itself; the async
handler's resolution is a Response or null/undefined (`none`). -/
def awaitJs : JsVal → Option Response
  | .undef => none
  | .respVal r => some r
  | .promiseVal p => p

/-! Strategies (lines 146..219). -/

/-- Outcome of the single network fetch a strategy invocation issues:
either a response, or a rejection (offline, DNS failure, ...). -/
inductive NetOutcome where
  | success (r : Response)
  | failure
deriving Repr

/-- What one strategy invocation produces: the value the handler resolves
to (`none` = resolved to null/undefined, not a Response), the cache state
after all side effects (fire-and-forget puts/trims included, since the
spec requires them to run to completion), and whether a network fetch for
the request was issued. -/
structure StratResult where
  value : Option Response
  state : CacheState
  fetched : Bool
deriving Repr

/-- Synthesized offline document response of lines 158..161: status 200,
text/html content type, body the collaborator-supplied offline document. -/
def offlineResponse (offlineHtml : String) : Response :=
  { status := 200, rtype := .defaultType, body := offlineHtml,
    headers := [("Content-Type", "text/html; charset=utf-8")] }

/-- Embedding of `new Response('', { status: 504 })`. -/
def response504 : Response :=
  { status := 504, rtype := .defaultType, body := "", headers := [] }

/-- Embedding of `handleHTMLNavigation` (lines 146..163): network first; on
success put a clone into `RUNTIME_CACHE` (unconditionally — there is no
ok/opaque check on this path) and return the live response; on failure try
`caches.match` over every store, else synthesize the offline document. -/
def handleHTMLNavigation (offlineHtml : String) (st : CacheState) (key : String)
    (net : NetOutcome) : StratResult :=
  match net with
  | .success network =>
      let st1 := cachesOpen st RUNTIME_CACHE
      { value := some network
        state := cachePut st1 RUNTIME_CACHE key network
        fetched := true }
  | .failure =>
      match cachesMatchGlobal st key with
      | some cached => { value := some cached, state := st, fetched := true }
      | none =>
          { value := some (offlineResponse offlineHtml), state := st, fetched := true }

/-- Embedding of `staleWhileRevalidate` (lines 166..181): match the named
store; concurrently fetch, and on a usable response (`ok` or opaque) put a
clone (the fire-and-forget side effect always runs); the handler resolves
line 180's `cached || fetchPromise || new Response('', { status: 504 })`,
where `cached` is an awaited value but `fetchPromise` is a Promise object
(truthy even when it will resolve to the null produced by
`.catch(() => null)`). -/
def staleWhileRevalidate (st : CacheState) (cacheName key : String)
    (net : NetOutcome) : StratResult :=
  let st1 := cachesOpen st cacheName
  let cached := cacheMatch st1 cacheName key
  let fetchResolved : Option Response :=
    match net with
    | .success response => some response
    | .failure => none
  let st2 :=
    match net with
    | .success response =>
        if response.ok || response.rtype == ResType.opaqueType then
          cachePut st1 cacheName key response
        else st1
    | .failure => st1
  { value := awaitJs (jsOr (jsOr (optToJs cached) (JsVal.promiseVal fetchResolved))
      (JsVal.respVal response504))
    state := st2
    fetched := true }

/-- Base64 data URL of the 1x1 transparent PNG placeholder (lines 200..201). -/
def fallbackImg : String :=
  "data:image/png;base64,iVBORw0KGgoAAAANSUhEUgAAAAEAAAABCAQAAAC1HAwCAAAAC0lEQVR42mP8/xcAAt8B3y8y0dQAAAAASUVORK5CYII="

/-- Embedding of `cacheFirstWithLimit` (lines 184..204): open the store and
match; on a hit return the cached response with no network activity; on a
miss fetch, put usable responses and trim (fire-and-forget, modelled as
completed), returning the fetched response either way; on fetch failure
return `fetch(fallbackImg)`, a data-URL fetch that decodes locally —
modelled by the collaborator-supplied `dataUrlFetch`. -/
def cacheFirstWithLimit (dataUrlFetch : String → Response) (st : CacheState)
    (cacheName : String) (maxItems : Nat) (key : String)
    (net : NetOutcome) : StratResult :=
  let st1 := cachesOpen st cacheName
  match cacheMatch st1 cacheName key with
  | some cached => { value := some cached, state := st1, fetched := false }
  | none =>
      match net with
      | .success response =>
          if response.ok || response.rtype == ResType.opaqueType then
            let st2 := cachePut st1 cacheName key response
            { value := some response
              state := trimCache st2 cacheName maxItems
              fetched := true }
          else
            { value := some response, state := st1, fetched := true }
      | .failure =>
          { value := some (dataUrlFetch fallbackImg), state := st1, fetched := true }

/-- Embedding of `networkFallingBackToCache` (lines 207..219): fetch; on a
usable response put a clone and return it, on an unusable response return
it uncached; on failure resolve `cached || new Response('', { status: 504 })`
where `cached` is the awaited `caches.match` over every store. -/
def networkFallingBackToCache (st : CacheState) (cacheName key : String)
    (net : NetOutcome) : StratResult :=
  match net with
  | .success response =>
      if response.ok || response.rtype == ResType.opaqueType then
        let st1 := cachesOpen st cacheName
        { value := some response
          state := cachePut st1 cacheName key response
          fetched := true }
      else { value := some response, state := st, fetched := true }
  | .failure =>
      { value := awaitJs (jsOr (optToJs (cachesMatchGlobal st key))
          (JsVal.respVal response504))
        state := st
        fetched := true }

/-- The fetch listener end to end: classify, then run the selected
strategy; `none` means the request is not intercepted (falls through to
native handling). -/
def handleRequest (offlineHtml : String) (dataUrlFetch : String → Response)
    (selfOrigin : String) (req : Request) (st : CacheState)
    (net : NetOutcome) : Option StratResult :=
  match classify selfOrigin req with
  | .notIntercepted => none
  | .htmlNavigation => some (handleHTMLNavigation offlineHtml st req.key net)
  | .staleReval name => some (staleWhileRevalidate st name req.key net)
  | .cacheFirstCap name maxItems =>
      some (cacheFirstWithLimit dataUrlFetch st name maxItems req.key net)
  | .netFallCache name => some (networkFallingBackToCache st name req.key net)

/-! Concrete fixtures used as witness and counterexample inputs. -/

/-- A same-origin 404: a successful fetch whose response is neither ok nor
opaque. -/
def sample404 : Response :=
  { status := 404, rtype := .basic, body := "", headers := [] }

/-- A cached opaque image response. -/
def sampleImgResponse : Response :=
  { status := 200, rtype := .opaqueType, body := "img-bytes", headers := [] }

/-- A stand-in for the browser decoding a data: URL into a response. -/
def sampleDataUrlDecode (u : String) : Response :=
  { status := 200, rtype := .basic, body := u, headers := [] }

end SW

/-! Lemmas about the cache-store embedding. -/

namespace SW

theorem storeOf_nil_of_not_hasStore (st : CacheState) (name : String)
    (h : hasStore st name = false) : storeOf st name = [] := by
  induction st with
  | nil => rfl
  | cons e t ih =>
      by_cases he : e.1 = name
      · simp [hasStore, he] at h
      · simp only [hasStore, if_neg he] at h
        simp only [storeOf, if_neg he]
        exact ih h

theorem storeOf_append_new (st : CacheState) (name : String) (s : CacheStore)
    (h : hasStore st name = false) : storeOf (st ++ [(name, s)]) name = s := by
  induction st with
  | nil => simp [storeOf]
  | cons e t ih =>
      by_cases he : e.1 = name
      · simp [hasStore, he] at h
      · simp only [hasStore, if_neg he] at h
        simp only [List.cons_append, storeOf, if_neg he]
        exact ih h

theorem storeOf_cachesOpen (st : CacheState) (name : String) :
    storeOf (cachesOpen st name) name = storeOf st name := by
  unfold cachesOpen
  by_cases h : hasStore st name
  · simp [h]
  · have hf : hasStore st name = false := by simpa using h
    rw [if_neg h, storeOf_append_new st name [] hf, storeOf_nil_of_not_hasStore st name hf]

theorem cacheMatch_cachesOpen (st : CacheState) (name key : String) :
    cacheMatch (cachesOpen st name) name key = cacheMatch st name key := by
  unfold cacheMatch
  rw [storeOf_cachesOpen]

theorem hasStore_of_match (st : CacheState) (name key : String) (c : Response)
    (h : cacheMatch st name key = some c) : hasStore st name = true := by
  by_contra hn
  have hf : hasStore st name = false := by simpa using hn
  rw [cacheMatch, storeOf_nil_of_not_hasStore st name hf] at h
  simp [storeMatch] at h

theorem cachesOpen_eq_of_match (st : CacheState) (name key : String) (c : Response)
    (h : cacheMatch st name key = some c) : cachesOpen st name = st := by
  unfold cachesOpen
  rw [if_pos (by rw [hasStore_of_match st name key c h])]

theorem hasStore_cachesOpen (st : CacheState) (name : String) :
    hasStore (cachesOpen st name) name = true := by
  unfold cachesOpen
  by_cases h : hasStore st name
  · simp [h]
  · rw [if_neg h]
    induction st with
    | nil => simp [hasStore]
    | cons e t ih =>
        by_cases he : e.1 = name
        · simp [hasStore, he]
        · simp only [hasStore, if_neg he] at h
          simp only [List.cons_append, hasStore, if_neg he]
          exact ih h

theorem storeOf_cachePut (st : CacheState) (name key : String) (r : Response)
    (h : hasStore st name = true) :
    storeOf (cachePut st name key r) name = storePut (storeOf st name) key r := by
  induction st with
  | nil => simp [hasStore] at h
  | cons e t ih =>
      by_cases he : e.1 = name
      · simp [cachePut, storeOf, if_pos he, he]
      · simp only [hasStore, if_neg he] at h
        simp only [cachePut, if_neg he, storeOf]
        exact ih h

theorem storeMatch_storePut_self (s : CacheStore) (key : String) (r : Response) :
    storeMatch (storePut s key r) key = some r := by
  induction s with
  | nil => simp [storePut, storeMatch]
  | cons e t ih =>
      by_cases he : e.1 = key
      · simp [storePut, if_pos he, storeMatch]
      · simp only [storePut, if_neg he, storeMatch]
        exact ih

theorem storeOf_cacheDelete (st : CacheState) (name key : String) :
    storeOf (cacheDelete st name key) name = storeDelete (storeOf st name) key := by
  induction st with
  | nil => rfl
  | cons e t ih =>
      by_cases he : e.1 = name
      · simp [cacheDelete, storeOf, if_pos he, he]
      · simp only [cacheDelete, if_neg he, storeOf]
        exact ih

theorem storeOf_foldl_cacheDelete (keys : List String) (st : CacheState) (name : String) :
    storeOf (keys.foldl (fun s k => cacheDelete s name k) st) name =
      keys.foldl (fun sto k => storeDelete sto k) (storeOf st name) := by
  induction keys generalizing st with
  | nil => rfl
  | cons k ks ih =>
      simp only [List.foldl_cons]
      rw [ih, storeOf_cacheDelete]

theorem foldl_storeDelete_take (s : CacheStore) :
    ∀ d, d ≤ s.length →
      ((s.map Prod.fst).take d).foldl (fun sto k => storeDelete sto k) s = s.drop d := by
  induction s with
  | nil => intro d _; simp
  | cons e t ih =>
      intro d hd
      cases d with
      | zero => simp
      | succ d' =>
          simp only [List.map_cons, List.take_succ_cons, List.foldl_cons,
            List.drop_succ_cons]
          have hdel : storeDelete (e :: t) e.1 = t := by
            simp [storeDelete]
          rw [hdel]
          exact ih d' (Nat.le_of_succ_le_succ hd)

theorem trimCache_storeOf (st : CacheState) (name : String) (maxItems : Nat) :
    storeOf (trimCache st name maxItems) name =
      if (storeOf st name).length ≤ maxItems then storeOf st name
      else (storeOf st name).drop ((storeOf st name).length - maxItems) := by
  unfold trimCache
  simp only [storeOf_cachesOpen, List.length_map]
  by_cases h : (storeOf st name).length ≤ maxItems
  · rw [if_pos h, if_pos h, storeOf_cachesOpen]
  · rw [if_neg h, if_neg h]
    rw [storeOf_foldl_cacheDelete, storeOf_cachesOpen]
    exact foldl_storeDelete_take (storeOf st name)
      ((storeOf st name).length - maxItems) (Nat.sub_le _ _)

end SW

/-! Lemmas about versioned store names. -/

namespace SW

theorem isPrefixB_append (p l x : List Char) (h : isPrefixB p l = true) :
    isPrefixB p (l ++ x) = true := by
  induction p generalizing l with
  | nil => rfl
  | cons a p ih =>
      cases l with
      | nil => simp [isPrefixB] at h
      | cons b l' =>
          simp only [isPrefixB, Bool.and_eq_true] at h
          simp only [List.cons_append, isPrefixB, Bool.and_eq_true]
          exact ⟨h.1, ih l' h.2⟩

theorem append_ne_of_take_ne (n : Nat) (a b x y : List Char)
    (ha : n ≤ a.length) (hb : n ≤ b.length) (h : a.take n ≠ b.take n) :
    a ++ x ≠ b ++ y := by
  intro he
  apply h
  rw [← List.take_append_of_le_length ha, ← List.take_append_of_le_length hb, he]

theorem precacheName_data (v : String) :
    (precacheName v).data = "quotesn-precache-".data ++ v.data :=
  String.data_append ..

theorem runtimeName_data (v : String) :
    (runtimeName v).data = "quotesn-runtime-".data ++ v.data :=
  String.data_append ..

theorem imageStoreName_data (v : String) :
    (imageStoreName v).data = ("quotesn-runtime-".data ++ v.data) ++ "-img".data := by
  show ((runtimeName v) ++ "-img").data = _
  rw [String.data_append, runtimeName_data]

theorem precacheName_ne_runtimeName (v₁ v₂ : String) :
    precacheName v₁ ≠ runtimeName v₂ := by
  intro h
  have hd := congrArg String.data h
  rw [precacheName_data, runtimeName_data] at hd
  exact append_ne_of_take_ne 9 _ _ _ _ (by decide) (by decide) (by decide) hd

theorem precacheName_inj {v₁ v₂ : String} (h : precacheName v₁ = precacheName v₂) :
    v₁ = v₂ := by
  have hd := congrArg String.data h
  rw [precacheName_data, precacheName_data] at hd
  exact String.ext (List.append_cancel_left hd)

theorem runtimeName_inj {v₁ v₂ : String} (h : runtimeName v₁ = runtimeName v₂) :
    v₁ = v₂ := by
  have hd := congrArg String.data h
  rw [runtimeName_data, runtimeName_data] at hd
  exact String.ext (List.append_cancel_left hd)

theorem imageStoreName_ne_precacheName (v₁ v₂ : String) :
    imageStoreName v₁ ≠ precacheName v₂ := by
  intro h
  have hd := congrArg String.data h
  rw [imageStoreName_data, precacheName_data, List.append_assoc] at hd
  exact append_ne_of_take_ne 9 _ _ _ _ (by decide) (by decide) (by decide) hd

theorem imageStoreName_ne_runtimeName (v₁ v₂ : String) (h : v₂ ≠ v₁ ++ "-img") :
    imageStoreName v₁ ≠ runtimeName v₂ := by
  intro he
  apply h
  have hd := congrArg String.data he
  rw [imageStoreName_data, runtimeName_data, List.append_assoc] at hd
  have hc := List.append_cancel_left hd
  exact String.ext (by rw [String.data_append, ← hc])

theorem runtimeName_ne_precacheName (v₁ v₂ : String) :
    runtimeName v₁ ≠ precacheName v₂ := by
  intro h
  have hd := congrArg String.data h
  rw [precacheName_data, runtimeName_data] at hd
  exact append_ne_of_take_ne 9 _ _ _ _ (by decide) (by decide) (by decide) hd

theorem strStartsWith_precacheName (v : String) :
    strStartsWith (precacheName v) "quotesn-" = true := by
  unfold strStartsWith
  rw [precacheName_data]
  exact isPrefixB_append _ _ _ (by decide)

theorem strStartsWith_runtimeName (v : String) :
    strStartsWith (runtimeName v) "quotesn-" = true := by
  unfold strStartsWith
  rw [runtimeName_data]
  exact isPrefixB_append _ _ _ (by decide)

theorem strStartsWith_imageStoreName (v : String) :
    strStartsWith (imageStoreName v) "quotesn-" = true := by
  unfold strStartsWith
  rw [imageStoreName_data]
  exact isPrefixB_append _ _ _ (isPrefixB_append _ _ _ (by decide))

theorem isStaleStoreName_eq_true (v n : String)
    (h1 : strStartsWith n "quotesn-" = true)
    (h2 : n ≠ precacheName v) (h3 : n ≠ runtimeName v) :
    isStaleStoreName v n = true := by
  simp [isStaleStoreName, h1, h2, h3]

end SW

/-! Claims. -/

namespace SW

/-- Claim C1: for every incoming request the router dispatches to exactly
one strategy, first match wins, in this order: non-GET requests are not
intercepted; mode navigate or an accept header containing text/html goes
to Network-First-With-Fallback; same-origin requests go to
Stale-While-Revalidate; destination image or a raster-image extension in
the URL path (png, jpg, jpeg, webp, avif, gif, case-insensitive, query
ignored) goes to Cache-First-With-Cap on the image-specific bounded store
with the configured cap; everything else goes to
Network-Falling-Back-To-Cache.  Each disjunct characterizes one outcome of
`classify` by its guard together with the negations of all earlier
guards. -/
theorem classify_first_match_dispatch (o : String) (req : Request) :
    (classify o req = .notIntercepted ↔ req.method ≠ "GET")
    ∧ (classify o req = .htmlNavigation ↔
        req.method = "GET"
        ∧ (req.mode = "navigate" ∨ strIncludes (req.accept.getD "") "text/html" = true))
    ∧ (classify o req = .staleReval RUNTIME_CACHE ↔
        req.method = "GET"
        ∧ ¬(req.mode = "navigate" ∨ strIncludes (req.accept.getD "") "text/html" = true)
        ∧ req.urlOrigin = o)
    ∧ (classify o req = .cacheFirstCap IMAGE_CACHE IMAGE_CACHE_MAX_ITEMS ↔
        req.method = "GET"
        ∧ ¬(req.mode = "navigate" ∨ strIncludes (req.accept.getD "") "text/html" = true)
        ∧ req.urlOrigin ≠ o
        ∧ (req.destination = "image" ∨ imageExtRegexTest req.urlPathname = true))
    ∧ (classify o req = .netFallCache RUNTIME_CACHE ↔
        req.method = "GET"
        ∧ ¬(req.mode = "navigate" ∨ strIncludes (req.accept.getD "") "text/html" = true)
        ∧ req.urlOrigin ≠ o
        ∧ ¬(req.destination = "image" ∨ imageExtRegexTest req.urlPathname = true)) := by
  unfold classify
  by_cases hm : req.method = "GET" <;>
  by_cases hn : (req.mode = "navigate" ∨ strIncludes (req.accept.getD "") "text/html" = true) <;>
  by_cases ho : req.urlOrigin = o <;>
  by_cases hd : (req.destination = "image" ∨ imageExtRegexTest req.urlPathname = true) <;>
  simp [hm, hn, ho, hd]

/-- Claim C2: the claim says that in Stale-While-Revalidate a cache miss
combined with a failing network fetch yields a status-504 response; the
code instead resolves to null, because line 180's
`cached || fetchPromise || new Response('', \x7b status: 504 \x7d)`
short-circuits at `fetchPromise` — a Promise object is truthy — and that
promise resolves to the null of `.catch(() => null)`, leaving the 504
disjunct unreachable.  Evaluated here at a concrete miss + failure
input. -/
theorem swr_miss_network_failure_resolves_null :
    (staleWhileRevalidate [] RUNTIME_CACHE "https://quotesn.github.io/css/site.css"
      .failure).value = none := rfl

/-- Claim C3: the claim says every intercepted GET request resolves to
exactly one Response, never null; but a same-origin non-navigation GET is
routed to Stale-While-Revalidate, and with an empty cache and a failing
fetch the handler resolves to null (see C2), so the fetch event is
answered with a non-Response value. -/
theorem intercepted_get_can_resolve_null :
    (handleRequest "offline-doc" (fun _ => response504) "https://quotesn.github.io"
      { method := "GET", mode := "no-cors", destination := "script",
        urlOrigin := "https://quotesn.github.io", urlPathname := "/js/app.js",
        accept := none }
      [] .failure).map StratResult.value = some none := rfl

/-- Claim C4, counterexample: `handleHTMLNavigation` puts every successful
network response into the runtime store with no ok/opaque check, so a
same-origin 404 (neither ok nor opaque) is stored, contradicting the
claim that no strategy caches an unusable response. -/
theorem navigation_caches_unusable_response :
    sample404.ok = false
    ∧ sample404.rtype ≠ ResType.opaqueType
    ∧ cacheMatch
        (handleHTMLNavigation "off" [] "https://quotesn.github.io/missing/"
          (.success sample404)).state
        RUNTIME_CACHE "https://quotesn.github.io/missing/"
      = some sample404 := by
  refine ⟨by decide, by decide, ?_⟩
  rfl

/-- Claim C4, amended: in Stale-While-Revalidate, Cache-First-With-Cap and
Network-Falling-Back-To-Cache a successful response that is neither ok nor
opaque is not stored in any cache store and (when no cached entry exists
for the request, so that the network result is the one delivered) is
returned to the caller as-is; the navigation strategy instead stores every
successful response, unusable ones included, and returns it as-is. -/
theorem unusable_response_not_cached_except_navigation
    (r : Response) (st : CacheState) (cacheName key : String)
    (maxItems : Nat) (dataUrlFetch : String → Response) (offlineHtml : String)
    (hok : r.ok = false) (hop : r.rtype ≠ ResType.opaqueType)
    (hmiss : cacheMatch st cacheName key = none) :
    ((staleWhileRevalidate st cacheName key (.success r)).state = cachesOpen st cacheName
      ∧ (staleWhileRevalidate st cacheName key (.success r)).value = some r)
    ∧ ((cacheFirstWithLimit dataUrlFetch st cacheName maxItems key (.success r)).state
        = cachesOpen st cacheName
      ∧ (cacheFirstWithLimit dataUrlFetch st cacheName maxItems key (.success r)).value
        = some r)
    ∧ ((networkFallingBackToCache st cacheName key (.success r)).state = st
      ∧ (networkFallingBackToCache st cacheName key (.success r)).value = some r)
    ∧ ((handleHTMLNavigation offlineHtml st key (.success r)).value = some r
      ∧ cacheMatch (handleHTMLNavigation offlineHtml st key (.success r)).state
          RUNTIME_CACHE key = some r) := by
  have husable : (r.ok || r.rtype == ResType.opaqueType) = false := by
    simp [hok, hop]
  have hmiss' : cacheMatch (cachesOpen st cacheName) cacheName key = none := by
    rw [cacheMatch_cachesOpen]; exact hmiss
  refine ⟨⟨?_, ?_⟩, ⟨?_, ?_⟩, ⟨?_, ?_⟩, ⟨?_, ?_⟩⟩
  · simp [staleWhileRevalidate, husable]
  · simp [staleWhileRevalidate, husable, hmiss', optToJs, jsOr, JsVal.truthy, awaitJs]
  · simp [cacheFirstWithLimit, hmiss', husable]
  · simp [cacheFirstWithLimit, hmiss', husable]
  · simp [networkFallingBackToCache, husable]
  · simp [networkFallingBackToCache, husable]
  · simp [handleHTMLNavigation]
  · simp only [handleHTMLNavigation]
    rw [cacheMatch, storeOf_cachePut _ _ _ _ (hasStore_cachesOpen st RUNTIME_CACHE),
      storeMatch_storePut_self]

/-- Claim C4, witness for the amended theorem at a concrete unusable
response and empty cache. -/
theorem unusable_response_not_cached_except_navigation_witness :
    (sample404.ok = false ∧ sample404.rtype ≠ ResType.opaqueType
      ∧ cacheMatch [] "c" "k" = none)
    ∧ (((staleWhileRevalidate [] "c" "k" (.success sample404)).state = cachesOpen [] "c"
      ∧ (staleWhileRevalidate [] "c" "k" (.success sample404)).value = some sample404)
    ∧ ((cacheFirstWithLimit sampleDataUrlDecode [] "c" 3 "k" (.success sample404)).state
        = cachesOpen [] "c"
      ∧ (cacheFirstWithLimit sampleDataUrlDecode [] "c" 3 "k" (.success sample404)).value
        = some sample404)
    ∧ ((networkFallingBackToCache [] "c" "k" (.success sample404)).state = []
      ∧ (networkFallingBackToCache [] "c" "k" (.success sample404)).value = some sample404)
    ∧ ((handleHTMLNavigation "off" [] "k" (.success sample404)).value = some sample404
      ∧ cacheMatch (handleHTMLNavigation "off" [] "k" (.success sample404)).state
          RUNTIME_CACHE "k" = some sample404)) :=
  ⟨⟨by decide, by decide, rfl⟩,
    unusable_response_not_cached_except_navigation sample404 [] "c" "k" 3
      sampleDataUrlDecode "off" (by decide) (by decide) rfl⟩

end SW

namespace SW

/-- Claim C5: for every store and cap, if the store's key count is at most
`maxItems` the trim leaves the store unchanged; otherwise it deletes
exactly the first `count - maxItems` entries in insertion order, so the
result is the length-`maxItems` suffix — the most recently inserted
entries — and its count is exactly `maxItems`. -/
theorem trimCache_bounds_store (st : CacheState) (name : String) (maxItems : Nat) :
    ((storeOf st name).length ≤ maxItems →
      storeOf (trimCache st name maxItems) name = storeOf st name)
    ∧ (maxItems < (storeOf st name).length →
      storeOf (trimCache st name maxItems) name =
        (storeOf st name).drop ((storeOf st name).length - maxItems)
      ∧ (storeOf (trimCache st name maxItems) name).length = maxItems) := by
  constructor
  · intro h
    rw [trimCache_storeOf, if_pos h]
  · intro h
    have h' : ¬ (storeOf st name).length ≤ maxItems := by omega
    constructor
    · rw [trimCache_storeOf, if_neg h']
    · rw [trimCache_storeOf, if_neg h', List.length_drop]
      omega

/-- Claim C6: during activation, exactly those stores are deleted whose
name starts with the `quotesn-` namespace and differs from both the
current precache and runtime store names; consequently, for a previous
version `v₁` and current version `v₂` (distinct tags, with `v₂` not itself
`v₁` plus the image suffix), none of the three `v₁`-generation store names
survives the sweep. -/
theorem activation_sweep_deletes_stale_generations (v₁ v₂ : String)
    (names : List String) (h₁ : v₁ ≠ v₂) (h₂ : v₂ ≠ v₁ ++ "-img") :
    (∀ n, n ∈ sweepDeleted v₂ names ↔
      n ∈ names ∧ strStartsWith n "quotesn-" = true
        ∧ n ≠ precacheName v₂ ∧ n ≠ runtimeName v₂)
    ∧ precacheName v₁ ∉ sweepRemaining v₂ names
    ∧ runtimeName v₁ ∉ sweepRemaining v₂ names
    ∧ imageStoreName v₁ ∉ sweepRemaining v₂ names := by
  have hpre : isStaleStoreName v₂ (precacheName v₁) = true :=
    isStaleStoreName_eq_true _ _ (strStartsWith_precacheName v₁)
      (fun he => h₁ (precacheName_inj he)) (precacheName_ne_runtimeName v₁ v₂)
  have hrun : isStaleStoreName v₂ (runtimeName v₁) = true :=
    isStaleStoreName_eq_true _ _ (strStartsWith_runtimeName v₁)
      (runtimeName_ne_precacheName v₁ v₂) (fun he => h₁ (runtimeName_inj he))
  have himg : isStaleStoreName v₂ (imageStoreName v₁) = true :=
    isStaleStoreName_eq_true _ _ (strStartsWith_imageStoreName v₁)
      (imageStoreName_ne_precacheName v₁ v₂) (imageStoreName_ne_runtimeName v₁ v₂ h₂)
  refine ⟨?_, ?_, ?_, ?_⟩
  · intro n
    simp [sweepDeleted, List.mem_filter, isStaleStoreName, and_assoc]
  · intro hmem
    have := (List.mem_filter.mp hmem).2
    rw [hpre] at this
    simp at this
  · intro hmem
    have := (List.mem_filter.mp hmem).2
    rw [hrun] at this
    simp at this
  · intro hmem
    have := (List.mem_filter.mp hmem).2
    rw [himg] at this
    simp at this

/-- Claim C6, witness at versions v1 and v2 with all five store names of
both generations present. -/
theorem activation_sweep_deletes_stale_generations_witness :
    (("v1" : String) ≠ "v2" ∧ ("v2" : String) ≠ "v1" ++ "-img")
    ∧ ((∀ n, n ∈ sweepDeleted "v2"
          [precacheName "v1", runtimeName "v1", imageStoreName "v1",
            precacheName "v2", runtimeName "v2"] ↔
        n ∈ [precacheName "v1", runtimeName "v1", imageStoreName "v1",
            precacheName "v2", runtimeName "v2"]
          ∧ strStartsWith n "quotesn-" = true
          ∧ n ≠ precacheName "v2" ∧ n ≠ runtimeName "v2")
    ∧ precacheName "v1" ∉ sweepRemaining "v2"
        [precacheName "v1", runtimeName "v1", imageStoreName "v1",
          precacheName "v2", runtimeName "v2"]
    ∧ runtimeName "v1" ∉ sweepRemaining "v2"
        [precacheName "v1", runtimeName "v1", imageStoreName "v1",
          precacheName "v2", runtimeName "v2"]
    ∧ imageStoreName "v1" ∉ sweepRemaining "v2"
        [precacheName "v1", runtimeName "v1", imageStoreName "v1",
          precacheName "v2", runtimeName "v2"]) :=
  ⟨⟨by decide, by decide⟩,
    activation_sweep_deletes_stale_generations "v1" "v2"
      [precacheName "v1", runtimeName "v1", imageStoreName "v1",
        precacheName "v2", runtimeName "v2"] (by decide) (by decide)⟩

/-- Claim C7: in the navigation strategy, when the network fetch fails and
no cached entry exists anywhere, the synthesized response has status 200,
a text/html content type, and the collaborator-supplied offline document
as body. -/
theorem navigation_offline_fallback (offlineHtml : String) (st : CacheState)
    (key : String) (hmiss : cachesMatchGlobal st key = none) :
    (handleHTMLNavigation offlineHtml st key .failure).value
      = some (offlineResponse offlineHtml)
    ∧ (offlineResponse offlineHtml).status = 200
    ∧ (offlineResponse offlineHtml).headers
        = [("Content-Type", "text/html; charset=utf-8")]
    ∧ (offlineResponse offlineHtml).body = offlineHtml := by
  refine ⟨?_, rfl, rfl, rfl⟩
  simp [handleHTMLNavigation, hmiss]

/-- Claim C7, witness at a concrete navigation key and empty cache. -/
theorem navigation_offline_fallback_witness :
    cachesMatchGlobal [] "https://quotesn.github.io/about/" = none
    ∧ ((handleHTMLNavigation "You are offline" [] "https://quotesn.github.io/about/"
        .failure).value = some (offlineResponse "You are offline")
      ∧ (offlineResponse "You are offline").status = 200
      ∧ (offlineResponse "You are offline").headers
          = [("Content-Type", "text/html; charset=utf-8")]
      ∧ (offlineResponse "You are offline").body = "You are offline") :=
  ⟨rfl, navigation_offline_fallback "You are offline" []
    "https://quotesn.github.io/about/" rfl⟩

/-- Claim C8: in Cache-First-With-Cap, when the request misses the cache
and the network fetch fails, the strategy resolves to the fixed embedded
placeholder image (the decoded 1x1 PNG data URL) — a Response, so the
failure never propagates to the caller. -/
theorem cacheFirst_placeholder_on_network_failure (dataUrlFetch : String → Response)
    (st : CacheState) (cacheName : String) (maxItems : Nat) (key : String)
    (hmiss : cacheMatch st cacheName key = none) :
    (cacheFirstWithLimit dataUrlFetch st cacheName maxItems key .failure).value
      = some (dataUrlFetch fallbackImg) := by
  have hmiss' : cacheMatch (cachesOpen st cacheName) cacheName key = none := by
    rw [cacheMatch_cachesOpen]; exact hmiss
  simp [cacheFirstWithLimit, hmiss']

/-- Claim C8, witness at a concrete third-party image request and empty
cache. -/
theorem cacheFirst_placeholder_on_network_failure_witness :
    cacheMatch [] IMAGE_CACHE "https://images.unsplash.com/photo.jpg" = none
    ∧ (cacheFirstWithLimit sampleDataUrlDecode [] IMAGE_CACHE 60
        "https://images.unsplash.com/photo.jpg" .failure).value
      = some (sampleDataUrlDecode fallbackImg) :=
  ⟨rfl, cacheFirst_placeholder_on_network_failure sampleDataUrlDecode [] IMAGE_CACHE 60
    "https://images.unsplash.com/photo.jpg" rfl⟩

/-- Claim C9: in Cache-First-With-Cap a cache hit is returned directly: no
network fetch is issued (the result does not even depend on the network
outcome) and the cache state is left exactly as it was. -/
theorem cacheFirst_hit_is_pure (dataUrlFetch : String → Response) (st : CacheState)
    (cacheName : String) (maxItems : Nat) (key : String) (c : Response)
    (net : NetOutcome) (hhit : cacheMatch st cacheName key = some c) :
    (cacheFirstWithLimit dataUrlFetch st cacheName maxItems key net).value = some c
    ∧ (cacheFirstWithLimit dataUrlFetch st cacheName maxItems key net).state = st
    ∧ (cacheFirstWithLimit dataUrlFetch st cacheName maxItems key net).fetched = false := by
  have hopen : cachesOpen st cacheName = st := cachesOpen_eq_of_match st cacheName key c hhit
  refine ⟨?_, ?_, ?_⟩ <;> simp [cacheFirstWithLimit, hopen, hhit]

/-- Claim C9, witness at a concrete pre-populated image store, with the
network outcome instantiated to failure to stress that it is not
consulted. -/
theorem cacheFirst_hit_is_pure_witness :
    cacheMatch [(IMAGE_CACHE, [("https://picsum.photos/200", sampleImgResponse)])]
        IMAGE_CACHE "https://picsum.photos/200" = some sampleImgResponse
    ∧ ((cacheFirstWithLimit sampleDataUrlDecode
          [(IMAGE_CACHE, [("https://picsum.photos/200", sampleImgResponse)])]
          IMAGE_CACHE 60 "https://picsum.photos/200" .failure).value
        = some sampleImgResponse
      ∧ (cacheFirstWithLimit sampleDataUrlDecode
          [(IMAGE_CACHE, [("https://picsum.photos/200", sampleImgResponse)])]
          IMAGE_CACHE 60 "https://picsum.photos/200" .failure).state
        = [(IMAGE_CACHE, [("https://picsum.photos/200", sampleImgResponse)])]
      ∧ (cacheFirstWithLimit sampleDataUrlDecode
          [(IMAGE_CACHE, [("https://picsum.photos/200", sampleImgResponse)])]
          IMAGE_CACHE 60 "https://picsum.photos/200" .failure).fetched = false) :=
  ⟨rfl, cacheFirst_hit_is_pure sampleDataUrlDecode
    [(IMAGE_CACHE, [("https://picsum.photos/200", sampleImgResponse)])]
    IMAGE_CACHE 60 "https://picsum.photos/200" sampleImgResponse .failure rfl⟩

/-- Claim C10: the activation sweep's retention predicate spares only the
exact precache and runtime names, so the current generation's image store
(runtime name plus the img suffix) is itself classified stale and deleted
on every activation — even a redeploy of the same version empties the
bounded image cache. -/
theorem activation_sweep_deletes_current_image_store :
    isStaleStoreName VERSION IMAGE_CACHE = true
    ∧ (∀ names : List String, IMAGE_CACHE ∉ sweepRemaining VERSION names)
    ∧ sweepRemaining VERSION [PRECACHE, RUNTIME_CACHE, IMAGE_CACHE]
        = [PRECACHE, RUNTIME_CACHE] := by
  refine ⟨by decide, ?_, by decide⟩
  intro names hmem
  have := (List.mem_filter.mp hmem).2
  rw [(by decide : isStaleStoreName VERSION IMAGE_CACHE = true)] at this
  simp at this

end SW
